import Mathlib

set_option maxRecDepth 4000

/-!
Verification development for the FightCred result-resolution and
credibility-scoring pipeline.

The definitions below are a shallow embedding of the TypeScript source:
  - `src/shared/types.ts`        (odds model, credibility scorer, tiers)
  - `src/server/result-poller.ts` (fuzzy matcher, result normalizer, poll loop)
  - `src/server/routers.ts`       (resolve / submit endpoints)
  - `src/server/_core/index.ts`   (storage operations)

JavaScript numbers are modelled as `ℚ` (exact rationals) where fractional
arithmetic occurs, `ℤ` for point totals and odds, and `ℕ` for counters and
ids.  `Math.round x` is modelled as `⌊x + 1/2⌋`, which agrees with the
JavaScript semantics (round half toward positive infinity).
-/

deriving instance DecidableEq for Except

-- ═══════════════════════════════ Enumerations (src/shared/types.ts) ═════════

/-- FinishType from src/shared/types.ts: "finish" | "decision". -/
inductive FinishType where
  | finish
  | decision
deriving DecidableEq

/-- MethodType from src/shared/types.ts:
"tko_ko" | "submission" | "decision" | "draw" | "nc". -/
inductive MethodType where
  | tko_ko
  | submission
  | decision
  | draw
  | nc
deriving DecidableEq

/-- The prediction method column is restricted to "tko_ko" | "submission"
(schema enum for `pickedMethod` and the TS type of `prediction.pickedMethod`). -/
inductive PickMethod where
  | tko_ko
  | submission
deriving DecidableEq

/-- PredictionStatus from src/shared/types.ts:
"pending" | "correct" | "wrong" | "partial".  The third outcome is named
`partway` here because its source name is a reserved word in Lean. -/
inductive PredictionStatus where
  | pending
  | correct
  | wrong
  | partway
deriving DecidableEq

/-- FightStatus from src/shared/types.ts:
"upcoming" | "live" | "completed" | "cancelled". -/
inductive FightStatus where
  | upcoming
  | live
  | completed
  | cancelled
deriving DecidableEq

/-- CredibilityTier from src/shared/types.ts:
"rookie" | "contender" | "champion" | "goat". -/
inductive CredibilityTier where
  | rookie
  | contender
  | champion
  | goat
deriving DecidableEq

-- ═══════════════════════════════ Odds model and scorer ══════════════════════

/-- JavaScript `Math.round`: round half toward positive infinity, i.e. the
floor of `q + 1/2` (`Rat.floor` is the mathematical floor on `ℚ`). -/
def jsRound (q : ℚ) : ℤ := (q + 1/2).floor

/-- `getImpliedProbability` from src/shared/types.ts lines 164-171:
positive odds give `100/(odds+100)`, otherwise `|odds|/(|odds|+100)`. -/
def getImpliedProbability (americanOdds : ℤ) : ℚ :=
  if 0 < americanOdds then
    100 / ((americanOdds : ℚ) + 100)
  else
    (americanOdds.natAbs : ℚ) / ((americanOdds.natAbs : ℚ) + 100)

/-- The implied probability the scorer uses (src/shared/types.ts line 192):
`pickedFighterOdds != null ? getImpliedProbability(pickedFighterOdds) : 0.5`. -/
def impliedProbOf (pickedFighterOdds : Option ℤ) : ℚ :=
  match pickedFighterOdds with
  | some o => getImpliedProbability o
  | none => 1/2

/-- The multiplier the scorer uses (src/shared/types.ts line 193):
`multiplier = 1 / impliedProb`. -/
def scorerMultiplier (pickedFighterOdds : Option ℤ) : ℚ :=
  1 / impliedProbOf pickedFighterOdds

/-- `getTierFromScore` from src/shared/types.ts lines 152-157. -/
def getTierFromScore (score : ℤ) : CredibilityTier :=
  if 80 ≤ score then .goat
  else if 60 ≤ score then .champion
  else if 40 ≤ score then .contender
  else .rookie

/-- CredibilityBreakdown from src/shared/types.ts lines 19-30. -/
structure CredibilityBreakdown where
  winnerPoints : ℤ
  finishTypePoints : ℤ
  methodPoints : ℤ
  underdogBonus : ℤ
  perfectPickBonus : ℤ
  totalPoints : ℤ
  multiplier : ℚ
  impliedProbability : ℤ
  penalty : ℤ
deriving DecidableEq

/-- The prediction argument of `calculateCredibility`
(src/shared/types.ts lines 174-178). -/
structure PredictionInput where
  pickedWinner : String
  pickedFinishType : Option FinishType
  pickedMethod : Option PickMethod
deriving DecidableEq

/-- The result argument of `calculateCredibility`
(src/shared/types.ts lines 179-183). -/
structure ResultInput where
  winner : String
  finishType : FinishType
  method : MethodType
deriving DecidableEq

/-- `calculateCredibility` from src/shared/types.ts lines 173-263, translated
clause by clause.  Null odds are `none`; JS `===` comparisons against a
nullable field become equality with `some _`. -/
def calculateCredibility (prediction : PredictionInput) (result : ResultInput)
    (pickedFighterOdds : Option ℤ) : CredibilityBreakdown :=
  let baseWinner : ℚ := 100
  let baseFinish : ℚ := 50
  let baseMethod : ℤ := 75
  let correctWinner : Bool := decide (prediction.pickedWinner = result.winner)
  let impliedProb : ℚ := impliedProbOf pickedFighterOdds
  let multiplier : ℚ := 1 / impliedProb
  let winnerPoints : ℤ := if correctWinner then jsRound (baseWinner * multiplier) else 0
  let correctFinish : Bool := decide (prediction.pickedFinishType = some result.finishType)
  let finishTypePoints : ℤ :=
    if correctWinner && correctFinish then
      if result.finishType = .finish then jsRound (baseFinish * (3/2)) else 50
    else 0
  let methodPoints : ℤ :=
    if correctWinner
        && decide (prediction.pickedFinishType = some .finish)
        && decide (result.finishType = .finish) then
      match prediction.pickedMethod with
      | none => 0
      | some pm =>
        let resultMethod : Option PickMethod :=
          if result.method = .tko_ko then some .tko_ko
          else if result.method = .submission then some .submission
          else none
        match resultMethod with
        | some rm => if pm = rm then baseMethod else 0
        | none => 0
    else 0
  let underdogBonus : ℤ :=
    match pickedFighterOdds with
    | some o => if correctWinner && decide (150 ≤ o) then jsRound (25 * ((o : ℚ) / 100)) else 0
    | none => 0
  let isPerfect : Bool :=
    correctWinner && correctFinish
      && (decide (result.finishType = .decision) || decide (0 < methodPoints))
  let perfectPickBonus : ℤ := if isPerfect then 50 else 0
  let penalty : ℤ :=
    if correctWinner then 0
    else
      match pickedFighterOdds with
      | none => -50
      | some o =>
        if o ≤ -300 then -100
        else if o ≤ -150 then -75
        else if o ≤ -110 then -50
        else if o ≤ 110 then -35
        else -20
  let totalPoints : ℤ :=
    if correctWinner then
      winnerPoints + finishTypePoints + methodPoints + underdogBonus + perfectPickBonus
    else penalty
  { winnerPoints := winnerPoints
    finishTypePoints := finishTypePoints
    methodPoints := methodPoints
    underdogBonus := underdogBonus
    perfectPickBonus := perfectPickBonus
    totalPoints := totalPoints
    multiplier := ((jsRound (multiplier * 100) : ℚ)) / 100
    impliedProbability := jsRound (impliedProb * 100)
    penalty := penalty }

-- ═══════════════════════════════ Result normalizer (result-poller.ts) ═══════

/-- JS `toLowerCase` on a string, as a list of characters (the feed text is
ASCII so per-character lowering agrees with JS). -/
def lowerChars (s : String) : List Char := s.data.map Char.toLower

/-- Whether the character list `l` starts with the character list `tok`. -/
def startsWithTok : List Char → List Char → Bool
  | _, [] => true
  | [], _ :: _ => false
  | c :: cs, d :: ds => if c = d then startsWithTok cs ds else false

/-- JS `String.prototype.includes`: `tok` occurs contiguously in `l`. -/
def containsTok : List Char → List Char → Bool
  | [], tok => startsWithTok [] tok
  | c :: cs, tok => startsWithTok (c :: cs) tok || containsTok cs tok

/-- Case-already-lowered containment test used by the normalizer. -/
def containsStr (t : List Char) (pat : String) : Bool := containsTok t pat.data

/-- `normalizeMethod` from src/server/result-poller.ts lines 57-64: lowercase
the text, then take the first substring rule that fires. -/
def normalizeMethod (text : String) : MethodType :=
  let t := lowerChars text
  if containsStr t "ko" || containsStr t "tko" || containsStr t "knockout" then .tko_ko
  else if containsStr t "sub" || containsStr t "choke" || containsStr t "lock"
      || containsStr t "triangle" then .submission
  else if containsStr t "draw" then .draw
  else if containsStr t "no contest" || containsStr t "nc" then .nc
  else .decision

/-- `normalizeFinishType` from src/server/result-poller.ts lines 66-68. -/
def normalizeFinishType (method : MethodType) : FinishType :=
  if method = .tko_ko ∨ method = .submission then .finish else .decision

/-- Normalizer as claim C6 literally states its rule list (second definition
for a refinement comparison): the submission rule is keyed on the full word
"submission" rather than the source's substring "sub". -/
def normalizeMethodSpec (text : String) : MethodType :=
  let t := lowerChars text
  if containsStr t "ko" || containsStr t "tko" || containsStr t "knockout" then .tko_ko
  else if containsStr t "submission" || containsStr t "choke" || containsStr t "lock"
      || containsStr t "triangle" then .submission
  else if containsStr t "draw" then .draw
  else if containsStr t "no contest" || containsStr t "nc" then .nc
  else .decision

/-- Normalizer as claim C6 reads once its submission keyword is amended to the
source's substring token "sub" (everything else unchanged). -/
def normalizeMethodSpecAmended (text : String) : MethodType :=
  let t := lowerChars text
  if containsStr t "ko" || containsStr t "tko" || containsStr t "knockout" then .tko_ko
  else if containsStr t "sub" || containsStr t "choke" || containsStr t "lock"
      || containsStr t "triangle" then .submission
  else if containsStr t "draw" then .draw
  else if containsStr t "no contest" || containsStr t "nc" then .nc
  else .decision

-- ═══════════════════════════════ Fuzzy name matcher (result-poller.ts) ══════

/-- The `normalize` closure inside `fuzzyMatch` (src/server/result-poller.ts
line 73): `s.toLowerCase().replace(/[^a-z]/g, "")` — lowercase, then drop
every character outside a-z (spaces included). -/
def normalizeName (s : String) : List Char :=
  (s.data.map Char.toLower).filter (fun c => decide ('a' ≤ c) && decide (c ≤ 'z'))

/-- JS `String.prototype.split(" ")`: split on single spaces; an empty input
yields one empty field, like `"".split(" ") == [""]`. -/
def splitOnSpace : List Char → List (List Char)
  | [] => [[]]
  | c :: cs =>
    let r := splitOnSpace cs
    if c = ' ' then [] :: r
    else
      match r with
      | [] => [[c]]
      | h :: t => (c :: h) :: t

/-- `fuzzyMatch` from src/server/result-poller.ts lines 72-84, branch by
branch: full equality of the normalized names, then the last-token check
(`na.split(" ").pop() ?? na`, guarded by length > 3), then containment. -/
def fuzzyMatch (a b : String) : Bool :=
  let na := normalizeName a
  let nb := normalizeName b
  if na = nb then true
  else
    let lastA := ((splitOnSpace na).getLast?).getD na
    let lastB := ((splitOnSpace nb).getLast?).getD nb
    if 3 < lastA.length ∧ lastA = lastB then true
    else if containsTok na nb || containsTok nb na then true
    else false

-- ═══════════════════════════════ Storage rows (src/drizzle/schema.ts) ═══════

/-- A row of the `fights` table, restricted to the columns the resolution
pipeline reads or writes. -/
structure Fight where
  id : ℕ
  fighter1Name : String
  fighter2Name : String
  odds1 : Option ℤ
  odds2 : Option ℤ
  status : FightStatus
  winner : Option String
  finishType : Option FinishType
  method : Option MethodType
  round : Option ℤ
  fightTime : Option String
deriving DecidableEq

/-- A row of the `predictions` table. -/
structure PredictionRow where
  id : ℕ
  userId : ℕ
  fightId : ℕ
  pickedWinner : String
  pickedFinishType : Option FinishType
  pickedMethod : Option PickMethod
  isLocked : Bool
  status : PredictionStatus
  winnerPoints : ℤ
  finishTypePoints : ℤ
  methodPoints : ℤ
  bonusPoints : ℤ
  totalPoints : ℤ
  oddsAtPrediction : Option ℤ
deriving DecidableEq

/-- A row of the `user_profiles` table (aggregate columns only). -/
structure UserProfileRow where
  userId : ℕ
  credibilityScore : ℤ
  tier : CredibilityTier
  totalPicks : ℕ
  correctPicks : ℕ
  correctFinishPicks : ℕ
  totalFinishPicks : ℕ
  correctMethodPicks : ℕ
  totalMethodPicks : ℕ
  correctUnderdogPicks : ℕ
  totalUnderdogPicks : ℕ
  currentStreak : ℕ
  bestStreak : ℕ
deriving DecidableEq

/-- A row of the `user_fighter_stats` table. -/
structure FighterStatRow where
  userId : ℕ
  fighterName : String
  totalPicks : ℕ
  correctPicks : ℕ
deriving DecidableEq

/-- A row of the `credibility_log` table (append-only). -/
structure CredLogRow where
  userId : ℕ
  fightId : ℕ
  predictionId : ℕ
  winnerPoints : ℤ
  finishTypePoints : ℤ
  methodPoints : ℤ
  bonusPoints : ℤ
  totalPoints : ℤ
deriving DecidableEq

/-- The durable state the pipeline reads and writes: the five tables, plus the
auto-increment counter for fresh prediction ids. -/
structure DBState where
  fights : List Fight
  predictions : List PredictionRow
  profiles : List UserProfileRow
  fighterStats : List FighterStatRow
  credLog : List CredLogRow
  nextPredId : ℕ
deriving DecidableEq

-- ═══════════════════════════════ Storage operations (_core/index.ts) ════════

/-- `getFightById` (src/server/_core/index.ts lines 765-770): first row whose
id matches, if any. -/
def getFightById (s : DBState) (id : ℕ) : Option Fight :=
  s.fights.find? (fun f => decide (f.id = id))

/-- `resolveFight` (src/server/_core/index.ts lines 785-796): unconditionally
set the outcome columns and `status = completed` on every row with the given
id.  There is no status guard.  Drizzle skips `undefined` values in `set`, so
an absent round or fight time leaves the column untouched. -/
def dbResolveFight (s : DBState) (fightId : ℕ) (winner : String)
    (finishType : FinishType) (method : MethodType)
    (round : Option ℤ) (fightTime : Option String) : DBState :=
  { s with fights := s.fights.map (fun f =>
      if f.id = fightId then
        { f with winner := some winner, finishType := some finishType,
                 method := some method,
                 round := match round with | some r => some r | none => f.round,
                 fightTime := match fightTime with | some t => some t | none => f.fightTime,
                 status := .completed }
      else f) }

/-- `getPredictionsForFight` (src/server/_core/index.ts lines 838-842). -/
def getPredictionsForFight (s : DBState) (fightId : ℕ) : List PredictionRow :=
  s.predictions.filter (fun p => decide (p.fightId = fightId))

/-- `getPredictionByUserAndFight` (src/server/_core/index.ts lines 812-817). -/
def getPredictionByUserAndFight (s : DBState) (userId fightId : ℕ) : Option PredictionRow :=
  s.predictions.find? (fun p => decide (p.userId = userId) && decide (p.fightId = fightId))

/-- `getUserProfile` (src/server/_core/index.ts lines 691-696). -/
def getUserProfile (s : DBState) (userId : ℕ) : Option UserProfileRow :=
  s.profiles.find? (fun p => decide (p.userId = userId))

/-- `updateUserProfile` (src/server/_core/index.ts lines 712-716) as issued by
the resolution fan-out, which passes a complete replacement of the aggregate
columns: every row with the user id is replaced. -/
def setUserProfile (s : DBState) (userId : ℕ) (newRow : UserProfileRow) : DBState :=
  { s with profiles := s.profiles.map (fun p => if p.userId = userId then newRow else p) }

/-- `insertCredibilityLog` (src/server/_core/index.ts lines 846-854). -/
def insertCredLog (s : DBState) (row : CredLogRow) : DBState :=
  { s with credLog := s.credLog ++ [row] }

/-- `lockPredictionsForFight` (src/server/_core/index.ts lines 832-836). -/
def lockPredictionsForFight (s : DBState) (fightId : ℕ) : DBState :=
  { s with predictions := s.predictions.map (fun p =>
      if p.fightId = fightId then { p with isLocked := true } else p) }

/-- The prediction-row update issued by the resolution fan-out
(src/server/routers.ts lines 280-287 and result-poller.ts lines 235-244). -/
def updatePredictionScoring (s : DBState) (predId : ℕ) (status : PredictionStatus)
    (wp ftp mp bp tp : ℤ) : DBState :=
  { s with predictions := s.predictions.map (fun p =>
      if p.id = predId then
        { p with status := status, winnerPoints := wp, finishTypePoints := ftp,
                 methodPoints := mp, bonusPoints := bp, totalPoints := tp }
      else p) }

/-- `upsertFighterStat` (src/server/_core/index.ts lines 870-882): increment
the counters of the existing (user, fighter) row, else insert a fresh row. -/
def upsertFighterStat (s : DBState) (userId : ℕ) (fighterName : String)
    (correct : Bool) : DBState :=
  match s.fighterStats.find? (fun fs => decide (fs.userId = userId) && decide (fs.fighterName = fighterName)) with
  | some _ =>
    { s with fighterStats := s.fighterStats.map (fun fs =>
        if fs.userId = userId ∧ fs.fighterName = fighterName then
          { fs with totalPicks := fs.totalPicks + 1,
                    correctPicks := fs.correctPicks + (if correct then 1 else 0) }
        else fs) }
  | none =>
    { s with fighterStats := s.fighterStats ++
        [{ userId := userId, fighterName := fighterName, totalPicks := 1,
           correctPicks := if correct then 1 else 0 }] }

/-- The row rewrite of `upsertPrediction`'s update branch: replace the picked
fields on the row with the matching id, leave every other row alone.  Drizzle
skips an `undefined` odds value, leaving the old snapshot in place. -/
def applyPredictionUpdate (pickedWinner : String) (pickedFinishType : Option FinishType)
    (pickedMethod : Option PickMethod) (oddsAtPrediction : Option ℤ) (targetId : ℕ)
    (p : PredictionRow) : PredictionRow :=
  if p.id = targetId then
    { p with pickedWinner := pickedWinner,
             pickedFinishType := pickedFinishType,
             pickedMethod := pickedMethod,
             oddsAtPrediction :=
               match oddsAtPrediction with
               | some o => some o
               | none => p.oddsAtPrediction }
  else p

/-- `upsertPrediction` (src/server/_core/index.ts lines 819-830): reject when
the existing prediction is locked, update it when unlocked, insert otherwise. -/
def upsertPrediction (s : DBState) (userId fightId : ℕ) (pickedWinner : String)
    (pickedFinishType : Option FinishType) (pickedMethod : Option PickMethod)
    (oddsAtPrediction : Option ℤ) : DBState × Except String ℕ :=
  match getPredictionByUserAndFight s userId fightId with
  | some existing =>
    if existing.isLocked then (s, .error "Prediction is locked — fight has started")
    else
      ({ s with predictions :=
          s.predictions.map (applyPredictionUpdate pickedWinner pickedFinishType
            pickedMethod oddsAtPrediction existing.id) }, .ok existing.id)
  | none =>
    ({ s with
        predictions := s.predictions ++
          [{ id := s.nextPredId, userId := userId, fightId := fightId,
             pickedWinner := pickedWinner, pickedFinishType := pickedFinishType,
             pickedMethod := pickedMethod, isLocked := false, status := .pending,
             winnerPoints := 0, finishTypePoints := 0, methodPoints := 0,
             bonusPoints := 0, totalPoints := 0,
             oddsAtPrediction := oddsAtPrediction }],
        nextPredId := s.nextPredId + 1 }, .ok s.nextPredId)

-- ═══════════════════════════════ Resolution fan-out ═════════════════════════

/-- The `correctMethod` flag computed inside the resolution loops
(src/server/routers.ts lines 262-267 / 488-493, result-poller.ts 220-225). -/
def correctMethodFlag (pickedFinishType : Option FinishType)
    (pickedMethod : Option PickMethod) (finishType : FinishType)
    (method : MethodType) : Bool :=
  decide (finishType = .finish) && decide (pickedFinishType = some .finish) &&
    (match pickedMethod with
     | none => false
     | some pm =>
       (decide (method = .tko_ko) && decide (pm = .tko_ko))
         || (decide (method = .submission) && decide (pm = .submission)))

/-- The tri-state prediction status derived inside the resolution loops
(src/server/routers.ts lines 269-274 / 495-500, result-poller.ts 227-232):
"correct" needs winner and finish right plus (decision or matching method),
"partial" needs winner or finish right, otherwise "wrong". -/
def derivePredictionStatus (pickedWinner : String) (pickedFinishType : Option FinishType)
    (pickedMethod : Option PickMethod) (winner : String) (finishType : FinishType)
    (method : MethodType) : PredictionStatus :=
  let correctWinner : Bool := decide (pickedWinner = winner)
  let correctFinish : Bool := decide (pickedFinishType = some finishType)
  let correctMethod : Bool := correctMethodFlag pickedFinishType pickedMethod finishType method
  if correctWinner && correctFinish && (decide (finishType = .decision) || correctMethod) then
    .correct
  else if correctWinner || correctFinish then .partway
  else .wrong

/-- One iteration of the prediction fan-out, shared verbatim between
`fights.resolve` (src/server/routers.ts lines 250-326), `admin.resolveFight`
(lines 476-552) and the poller (src/server/result-poller.ts lines 208-284):
score the prediction, write the scoring columns, append a credibility-log row,
then fold the breakdown into the user's profile and fighter stat.

The profile write (`db.updateUserProfile`) is the storage call that can fail
at runtime; a write error is injected for the users listed in `failUsers` and
surfaces as the thrown exception of the loop body.  A missing profile is
skipped silently, as in the source (`if (profile) { ... }`). -/
def processPrediction (fight : Fight) (winner : String) (finishType : FinishType)
    (method : MethodType) (failUsers : List ℕ) (s : DBState)
    (pred : PredictionRow) : DBState × Except String Unit :=
  let pickedOdds : Option ℤ :=
    if pred.pickedWinner = fight.fighter1Name then fight.odds1 else fight.odds2
  let breakdown := calculateCredibility
    ⟨pred.pickedWinner, pred.pickedFinishType, pred.pickedMethod⟩
    ⟨winner, finishType, method⟩ pickedOdds
  let correctWinner : Bool := decide (pred.pickedWinner = winner)
  let correctFinish : Bool := decide (pred.pickedFinishType = some finishType)
  let correctMethod : Bool :=
    correctMethodFlag pred.pickedFinishType pred.pickedMethod finishType method
  let status := derivePredictionStatus pred.pickedWinner pred.pickedFinishType
    pred.pickedMethod winner finishType method
  let s1 := updatePredictionScoring s pred.id status breakdown.winnerPoints
    breakdown.finishTypePoints breakdown.methodPoints
    (breakdown.underdogBonus + breakdown.perfectPickBonus) breakdown.totalPoints
  let s2 := insertCredLog s1
    { userId := pred.userId, fightId := fight.id, predictionId := pred.id,
      winnerPoints := breakdown.winnerPoints,
      finishTypePoints := breakdown.finishTypePoints,
      methodPoints := breakdown.methodPoints,
      bonusPoints := breakdown.underdogBonus + breakdown.perfectPickBonus,
      totalPoints := breakdown.totalPoints }
  match getUserProfile s2 pred.userId with
  | none => (s2, .ok ())
  | some profile =>
    let isUnderdog : Bool :=
      match pickedOdds with
      | some o => decide (150 ≤ o)
      | none => false
    let newScore := profile.credibilityScore + breakdown.totalPoints
    let newStreak := if correctWinner then profile.currentStreak + 1 else 0
    if pred.userId ∈ failUsers then (s2, .error "profile update failed")
    else
      let s3 := setUserProfile s2 pred.userId
        { profile with
            credibilityScore := newScore,
            tier := getTierFromScore newScore,
            totalPicks := profile.totalPicks + 1,
            correctPicks := profile.correctPicks + (if correctWinner then 1 else 0),
            correctFinishPicks := profile.correctFinishPicks + (if correctFinish then 1 else 0),
            totalFinishPicks := profile.totalFinishPicks + (if pred.pickedFinishType.isSome then 1 else 0),
            correctMethodPicks := profile.correctMethodPicks + (if correctMethod then 1 else 0),
            totalMethodPicks := profile.totalMethodPicks + (if pred.pickedMethod.isSome then 1 else 0),
            correctUnderdogPicks := profile.correctUnderdogPicks + (if isUnderdog && correctWinner then 1 else 0),
            totalUnderdogPicks := profile.totalUnderdogPicks + (if isUnderdog then 1 else 0),
            currentStreak := newStreak,
            bestStreak := max profile.bestStreak newStreak }
      let s4 := upsertFighterStat s3 pred.userId pred.pickedWinner correctWinner
      (s4, .ok ())

/-- The sequential `for (const pred of allPredictions)` loop: the first
exception aborts the remaining iterations and propagates. -/
def processPredictions (fight : Fight) (winner : String) (finishType : FinishType)
    (method : MethodType) (failUsers : List ℕ) :
    DBState → List PredictionRow → DBState × Except String Unit
  | s, [] => (s, .ok ())
  | s, p :: ps =>
    match processPrediction fight winner finishType method failUsers s p with
    | (s1, Except.ok _) => processPredictions fight winner finishType method failUsers s1 ps
    | (s1, Except.error e) => (s1, .error e)

/-- The shared body of `fights.resolve` (src/server/routers.ts lines 240-329)
and `admin.resolveFight` (lines 466-555), after the caller-side authorization
check: unconditionally mark the fight resolved, re-fetch it (rejecting when
the id is unknown), then fan out over every prediction of the fight.  The
returned value models the endpoint's `{ success, predictionsResolved }` or the
thrown error; the returned state is whatever the mutations left behind. -/
def resolveFightEndpoint (s : DBState) (fightId : ℕ) (winner : String)
    (finishType : FinishType) (method : MethodType) (round : Option ℤ)
    (fightTime : Option String) (failUsers : List ℕ) : DBState × Except String ℕ :=
  let s1 := dbResolveFight s fightId winner finishType method round fightTime
  match getFightById s1 fightId with
  | none => (s1, .error "Fight not found")
  | some fight =>
    let preds := getPredictionsForFight s1 fightId
    match processPredictions fight winner finishType method failUsers s1 preds with
    | (s2, Except.ok _) => (s2, .ok preds.length)
    | (s2, Except.error e) => (s2, .error e)

-- ═══════════════════════════════ Poller loop (result-poller.ts) ═════════════

/-- The per-fight body of the poller's `for` loop once the feed has been
matched and normalized (src/server/result-poller.ts lines 199-287): resolve
the fight, lock its predictions, then run the same fan-out.  Everything up to
here sits inside one try block, so a per-prediction failure surfaces as the
exception of the whole fight. -/
def pollerAttemptFight (s : DBState) (fight : Fight) (resolvedWinner : String)
    (finishType : FinishType) (method : MethodType) (failUsers : List ℕ) :
    DBState × Except String ℕ :=
  let s1 := dbResolveFight s fight.id resolvedWinner finishType method none none
  let s2 := lockPredictionsForFight s1 fight.id
  let preds := getPredictionsForFight s2 fight.id
  match processPredictions fight resolvedWinner finishType method failUsers s2 preds with
  | (s3, Except.ok _) => (s3, .ok preds.length)
  | (s3, Except.error e) => (s3, .error e)

/-- The poller's fight loop with its per-fight try/catch
(src/server/result-poller.ts lines 151-302): a caught exception is recorded as
one message in the aggregated `errors` list and processing continues with the
remaining fights; successes bump the `resolved` counter.  Each list entry is a
pending fight together with the winner, finish type and method already
extracted from the feed. -/
def pollLoopModel (failUsers : List ℕ) :
    DBState → List (Fight × String × FinishType × MethodType) →
    DBState × ℕ × List String
  | s, [] => (s, 0, [])
  | s, (fight, w, ft, m) :: rest =>
    match pollerAttemptFight s fight w ft m failUsers with
    | (s1, Except.ok _) =>
      let r := pollLoopModel failUsers s1 rest
      (r.1, r.2.1 + 1, r.2.2)
    | (s1, Except.error e) =>
      let r := pollLoopModel failUsers s1 rest
      (r.1, r.2.1,
        ("Error resolving " ++ fight.fighter1Name ++ " vs " ++ fight.fighter2Name
          ++ ": " ++ e) :: r.2.2)

-- ═══════════════════════════════ Prediction submission ══════════════════════

/-- `predictions.submit` (src/server/routers.ts lines 358-381): reject when the
fight is unknown, reject when its status is "live" or "completed", otherwise
snapshot the picked side's odds and upsert the user's prediction. -/
def predictionsSubmit (s : DBState) (userId fightId : ℕ) (pickedWinner : String)
    (pickedFinishType : Option FinishType) (pickedMethod : Option PickMethod) :
    DBState × Except String ℕ :=
  match getFightById s fightId with
  | none => (s, .error "Fight not found")
  | some fight =>
    if fight.status = .live ∨ fight.status = .completed then
      (s, .error "Cannot predict — fight has already started")
    else
      let oddsAtPrediction : Option ℤ :=
        if pickedWinner = fight.fighter1Name then fight.odds1 else fight.odds2
      upsertPrediction s userId fightId pickedWinner pickedFinishType pickedMethod
        oddsAtPrediction

-- ═══════════════════════════════ Concrete fixtures ══════════════════════════

/-- An unresolved fight between "Alpha" and "Bravo" with no posted odds. -/
def fightAB : Fight :=
  { id := 1, fighter1Name := "Alpha", fighter2Name := "Bravo",
    odds1 := none, odds2 := none, status := .upcoming,
    winner := none, finishType := none, method := none,
    round := none, fightTime := none }

/-- A pending winner-only prediction on `fightAB` by user 7. -/
def predOfUser7 : PredictionRow :=
  { id := 1, userId := 7, fightId := 1, pickedWinner := "Alpha",
    pickedFinishType := none, pickedMethod := none, isLocked := false,
    status := .pending, winnerPoints := 0, finishTypePoints := 0,
    methodPoints := 0, bonusPoints := 0, totalPoints := 0,
    oddsAtPrediction := none }

/-- A second pending prediction on `fightAB` by user 8. -/
def predOfUser8 : PredictionRow :=
  { predOfUser7 with id := 2, userId := 8 }

/-- A fresh all-zero profile for the given user. -/
def freshProfile (userId : ℕ) : UserProfileRow :=
  { userId := userId, credibilityScore := 0, tier := .rookie,
    totalPicks := 0, correctPicks := 0, correctFinishPicks := 0,
    totalFinishPicks := 0, correctMethodPicks := 0, totalMethodPicks := 0,
    correctUnderdogPicks := 0, totalUnderdogPicks := 0,
    currentStreak := 0, bestStreak := 0 }

/-- Store with one fight, one prediction and one profile (re-entry scenario). -/
def stateOnePred : DBState :=
  { fights := [fightAB], predictions := [predOfUser7],
    profiles := [freshProfile 7], fighterStats := [], credLog := [],
    nextPredId := 2 }

/-- Store with one fight carrying two predictions by different users
(partial-failure scenario). -/
def stateTwoPreds : DBState :=
  { fights := [fightAB], predictions := [predOfUser7, predOfUser8],
    profiles := [freshProfile 7, freshProfile 8], fighterStats := [],
    credLog := [], nextPredId := 3 }

/-- The store after the first (successful) resolution of `stateOnePred`. -/
def stateOnePredResolved : DBState :=
  (resolveFightEndpoint stateOnePred 1 "Alpha" .decision .decision none none []).1

/-- The store after the poller's failed attempt on `stateTwoPreds`, where the
profile write of user 7 errors. -/
def stateTwoPredsFailed : DBState :=
  (pollerAttemptFight stateTwoPreds fightAB "Alpha" .decision .decision [7]).1

/-- A cancelled fight for the submission scenario. -/
def fightCancelled : Fight :=
  { fightAB with id := 4, status := .cancelled }

/-- Store with one cancelled fight and no predictions yet. -/
def stateCancelled : DBState :=
  { fights := [fightCancelled], predictions := [], profiles := [],
    fighterStats := [], credLog := [], nextPredId := 1 }

-- ═══════════════════════════════ List helper lemmas ═════════════════════════

/-- Mapping a function that fixes every member of a list is the identity. -/
theorem mapFixesAll {α : Type} (l : List α) (g : α → α) (h : ∀ a ∈ l, g a = a) :
    l.map g = l := by
  induction l with
  | nil => rfl
  | cons a t ih =>
    simp only [List.map_cons]
    rw [h a (by simp), ih (fun b hb => h b (by simp [hb]))]

/-- A search over a list none of whose members satisfies the predicate. -/
theorem findNoneOfAll {α : Type} (p : α → Bool) (l : List α)
    (h : ∀ a ∈ l, p a = false) : l.find? p = none := by
  induction l with
  | nil => rfl
  | cons a t ih =>
    rw [List.find?_cons, h a (by simp), ih (fun b hb => h b (by simp [hb]))]

/-- Searching after mapping a predicate-preserving function. -/
theorem findMapPreserve {α : Type} (q : α → Bool) (g : α → α)
    (hg : ∀ a, q (g a) = q a) (l : List α) :
    (l.map g).find? q = (l.find? q).map g := by
  induction l with
  | nil => rfl
  | cons a t ih =>
    simp only [List.map_cons, List.find?_cons, hg a]
    cases hqa : q a
    · simpa using ih
    · simp

/-- Searching an appended list when the first part has no hit. -/
theorem findAppendOfNone {α : Type} (p : α → Bool) (l l2 : List α)
    (h : l.find? p = none) : (l ++ l2).find? p = l2.find? p := by
  induction l with
  | nil => rfl
  | cons a t ih =>
    rw [List.cons_append, List.find?_cons]
    rw [List.find?_cons] at h
    cases hpa : p a
    · simp only [hpa] at h ⊢
      exact ih h
    · simp [hpa] at h

-- ═══════════════════════════════ Claim C3 ═══════════════════════════════════

/-- C3.  End-to-end scorer value: a prediction picking fighter A to win by
submission at +200 odds, scored against A winning by submission (a finish),
earns winnerPoints 300, finishTypePoints 75, methodPoints 75, underdogBonus
50, perfectPickBonus 50, and totalPoints 550. -/
theorem calculateCredibility_underdog_submission_scenario :
    (calculateCredibility ⟨"Fighter A", some .finish, some .submission⟩
        ⟨"Fighter A", .finish, .submission⟩ (some 200)).winnerPoints = 300 ∧
    (calculateCredibility ⟨"Fighter A", some .finish, some .submission⟩
        ⟨"Fighter A", .finish, .submission⟩ (some 200)).finishTypePoints = 75 ∧
    (calculateCredibility ⟨"Fighter A", some .finish, some .submission⟩
        ⟨"Fighter A", .finish, .submission⟩ (some 200)).methodPoints = 75 ∧
    (calculateCredibility ⟨"Fighter A", some .finish, some .submission⟩
        ⟨"Fighter A", .finish, .submission⟩ (some 200)).underdogBonus = 50 ∧
    (calculateCredibility ⟨"Fighter A", some .finish, some .submission⟩
        ⟨"Fighter A", .finish, .submission⟩ (some 200)).perfectPickBonus = 50 ∧
    (calculateCredibility ⟨"Fighter A", some .finish, some .submission⟩
        ⟨"Fighter A", .finish, .submission⟩ (some 200)).totalPoints = 550 := by
  with_unfolding_all exact of_decide_eq_true rfl

-- ═══════════════════════════════ Claim C5 ═══════════════════════════════════

/-- Normalization as claim C5 reads it, keeping whitespace so that the
subsequent split on spaces can see tokens: lowercase, strip the non-letters
other than spaces. -/
def normalizeNameKeepSpaces (s : String) : List Char :=
  (s.data.map Char.toLower).filter (fun c => (decide ('a' ≤ c) && decide (c ≤ 'z')) || decide (c = ' '))

/-- The last whitespace-delimited token of a name under the claim's reading. -/
def lastTokenOf (s : String) : List Char :=
  ((splitOnSpace (normalizeNameKeepSpaces s)).getLast?).getD (normalizeNameKeepSpaces s)

/-- C5 fails on the code.  "John Smith" and "Bob Smith" share the last
whitespace-delimited token "smith" (5 > 3 characters), so the claim requires
`fuzzyMatch` to return true, but the source returns false: its `normalize`
strips spaces before `split(" ")`, so the split never separates tokens and the
last-name branch can never fire when full equality already failed. -/
theorem fuzzyMatch_last_token_branch_dead :
    lastTokenOf "John Smith" = lastTokenOf "Bob Smith" ∧
    3 < (lastTokenOf "John Smith").length ∧
    fuzzyMatch "John Smith" "Bob Smith" = false := by
  decide

-- ═══════════════════════════════ Claim C6 ═══════════════════════════════════

/-- C6 as stated is refuted at the input "Verbal Sub": the source maps it to
submission (its substring token is "sub"), while the claim's literal rule list
(substring "submission") would fall through to the decision default. -/
theorem normalizeMethod_sub_token_divergence :
    normalizeMethod "Verbal Sub" = MethodType.submission ∧
    normalizeMethodSpec "Verbal Sub" = MethodType.decision := by
  decide

/-- C6 amended.  With the submission keyword amended from "submission" to the
source's substring token "sub", the normalizer applies exactly the claimed
case-insensitive substring rules in priority order; finishType is derived as
finish exactly for tko_ko and submission; and the three quoted examples map as
claimed. -/
theorem normalizeMethod_amended_rules :
    (∀ t : String, normalizeMethod t = normalizeMethodSpecAmended t) ∧
    (∀ m : MethodType, normalizeFinishType m = .finish ↔ (m = .tko_ko ∨ m = .submission)) ∧
    (normalizeMethod "Submission (rear naked choke)" = .submission ∧
      normalizeFinishType (normalizeMethod "Submission (rear naked choke)") = .finish) ∧
    (normalizeMethod "Decision (unanimous)" = .decision ∧
      normalizeFinishType (normalizeMethod "Decision (unanimous)") = .decision) ∧
    (normalizeMethod "KO (punch)" = .tko_ko ∧
      normalizeFinishType (normalizeMethod "KO (punch)") = .finish) := by
  refine ⟨fun t => rfl, fun m => by cases m <;> decide, by decide, by decide, by decide⟩

-- ═══════════════════════════════ Claim C1 ═══════════════════════════════════

/-- C1 fails on the code.  Resolving the same fight twice through the resolve
endpoint is neither rejected nor guarded: in a store with one fight, one
prediction and one profile, the first resolution completes the fight and adds
200 points to the predictor's aggregate, and a second invocation on the
already-completed fight succeeds again and adds the same 200 points a second
time (400 total), re-scoring the same (fight, prediction) pair. -/
theorem resolveFight_reentry_double_counts :
    (resolveFightEndpoint stateOnePred 1 "Alpha" .decision .decision none none []).2
        = Except.ok 1 ∧
    (getUserProfile stateOnePredResolved 7).map (fun p => p.credibilityScore)
        = some 200 ∧
    (getFightById stateOnePredResolved 1).map (fun f => f.status)
        = some FightStatus.completed ∧
    (resolveFightEndpoint stateOnePredResolved 1 "Alpha" .decision .decision none none []).2
        = Except.ok 1 ∧
    (getUserProfile
        (resolveFightEndpoint stateOnePredResolved 1 "Alpha" .decision .decision none none []).1
        7).map (fun p => p.credibilityScore) = some 400 := by
  with_unfolding_all exact of_decide_eq_true rfl

-- ═══════════════════════════════ Claim C2 ═══════════════════════════════════

/-- C2 fails on the code.  In a store where one fight has two open predictions
(users 7 and 8) and user 7's profile write fails, the poller records the
failure in its aggregated error list, but the sibling prediction of the same
fight is not processed: user 8's prediction row stays pending and user 8's
aggregate stays untouched, because the catch sits outside the prediction loop. -/
theorem poller_sibling_prediction_skipped_on_failure :
    (pollLoopModel [7] stateTwoPreds [(fightAB, "Alpha", .decision, .decision)]).1
        = stateTwoPredsFailed ∧
    (pollLoopModel [7] stateTwoPreds [(fightAB, "Alpha", .decision, .decision)]).2.2
        = ["Error resolving Alpha vs Bravo: profile update failed"] ∧
    (stateTwoPredsFailed.predictions.find? (fun p => decide (p.id = 2))).map (fun p => p.status)
        = some PredictionStatus.pending ∧
    (getUserProfile stateTwoPredsFailed 8).map (fun p => p.credibilityScore)
        = some 0 := by
  with_unfolding_all exact of_decide_eq_true rfl

-- ═══════════════════════════════ Claim C4 ═══════════════════════════════════

/-- The penalty bracket exactly as claim C4 lists it (second definition for a
refinement comparison against the scorer). -/
def penaltyBracketSpec (odds : Option ℤ) : ℤ :=
  match odds with
  | none => -50
  | some o =>
    if o ≤ -300 then -100
    else if o ≤ -150 then -75
    else if o ≤ -110 then -50
    else if o ≤ 110 then -35
    else -20

/-- C4.  Whenever the picked winner differs from the result winner, the scorer
awards no method or finish-type points, and the total equals the claimed
penalty bracket of the picked side's odds, which is never positive. -/
theorem wrong_winner_scoring (prediction : PredictionInput) (result : ResultInput)
    (odds : Option ℤ) (h : prediction.pickedWinner ≠ result.winner) :
    (calculateCredibility prediction result odds).methodPoints = 0 ∧
    (calculateCredibility prediction result odds).finishTypePoints = 0 ∧
    (calculateCredibility prediction result odds).totalPoints = penaltyBracketSpec odds ∧
    (calculateCredibility prediction result odds).totalPoints ≤ 0 := by
  have hw : decide (prediction.pickedWinner = result.winner) = false := by
    simp [h]
  simp only [calculateCredibility, penaltyBracketSpec, hw, Bool.false_and,
    Bool.and_eq_true, if_false, Bool.false_eq_true, if_neg]
  refine ⟨trivial, trivial, ?_, ?_⟩
  · cases odds <;> simp
  · cases odds with
    | none => simp
    | some o => simp only []; split_ifs <;> omega

/-- Witness for C4 at a concrete wrong pick on a heavy favourite. -/
theorem wrong_winner_scoring_witness :
    ("Fighter B" : String) ≠ "Fighter A" ∧
    ((calculateCredibility ⟨"Fighter B", some .decision, none⟩
        ⟨"Fighter A", .finish, .tko_ko⟩ (some (-300))).methodPoints = 0 ∧
      (calculateCredibility ⟨"Fighter B", some .decision, none⟩
        ⟨"Fighter A", .finish, .tko_ko⟩ (some (-300))).finishTypePoints = 0 ∧
      (calculateCredibility ⟨"Fighter B", some .decision, none⟩
        ⟨"Fighter A", .finish, .tko_ko⟩ (some (-300))).totalPoints
          = penaltyBracketSpec (some (-300)) ∧
      (calculateCredibility ⟨"Fighter B", some .decision, none⟩
        ⟨"Fighter A", .finish, .tko_ko⟩ (some (-300))).totalPoints ≤ 0) :=
  ⟨by decide, wrong_winner_scoring ⟨"Fighter B", some .decision, none⟩
    ⟨"Fighter A", .finish, .tko_ko⟩ (some (-300)) (by decide)⟩

-- ═══════════════════════════════ Claim C7 ═══════════════════════════════════

/-- C7.  For every non-zero integer odds value, the implied probability lies
strictly between 0 and 1, and the multiplier the scorer uses for those odds is
exactly its reciprocal. -/
theorem odds_model_bounds_and_multiplier (o : ℤ) (h : o ≠ 0) :
    0 < getImpliedProbability o ∧ getImpliedProbability o < 1 ∧
    scorerMultiplier (some o) = 1 / getImpliedProbability o := by
  refine ⟨?_, ?_, rfl⟩
  · unfold getImpliedProbability
    split_ifs with hpos
    · apply div_pos (by norm_num)
      have : (0 : ℚ) < (o : ℚ) := by exact_mod_cast hpos
      linarith
    · apply div_pos
      · have : 0 < o.natAbs := Int.natAbs_pos.mpr h
        exact_mod_cast this
      · have : (0 : ℚ) ≤ (o.natAbs : ℚ) := by positivity
        linarith
  · unfold getImpliedProbability
    split_ifs with hpos
    · rw [div_lt_one]
      · have : (0 : ℚ) < (o : ℚ) := by exact_mod_cast hpos
        linarith
      · have : (0 : ℚ) < (o : ℚ) := by exact_mod_cast hpos
        linarith
    · rw [div_lt_one]
      · linarith [show (0 : ℚ) ≤ (o.natAbs : ℚ) by positivity]
      · linarith [show (0 : ℚ) ≤ (o.natAbs : ℚ) by positivity]

/-- Witness for C7 at odds +200. -/
theorem odds_model_bounds_and_multiplier_witness :
    (200 : ℤ) ≠ 0 ∧
    (0 < getImpliedProbability 200 ∧ getImpliedProbability 200 < 1 ∧
      scorerMultiplier (some 200) = 1 / getImpliedProbability 200) :=
  ⟨by decide, odds_model_bounds_and_multiplier 200 (by decide)⟩

-- ═══════════════════════════════ Claim C10 ══════════════════════════════════

/-- C10.  A winner-only pick (no finish type chosen) can never be scored as
fully correct: its finish flag fails against every result, so it earns no
finish-type points and no perfect-pick bonus, and its derived status is never
"correct" — when the picked winner wins it is exactly "partial". -/
theorem winner_only_pick_at_best_partway (prediction : PredictionInput)
    (result : ResultInput) (odds : Option ℤ)
    (h : prediction.pickedFinishType = none) :
    (calculateCredibility prediction result odds).finishTypePoints = 0 ∧
    (calculateCredibility prediction result odds).perfectPickBonus = 0 ∧
    derivePredictionStatus prediction.pickedWinner prediction.pickedFinishType
        prediction.pickedMethod result.winner result.finishType result.method
      ≠ PredictionStatus.correct ∧
    (prediction.pickedWinner = result.winner →
      derivePredictionStatus prediction.pickedWinner prediction.pickedFinishType
          prediction.pickedMethod result.winner result.finishType result.method
        = PredictionStatus.partway) := by
  have hf : decide (prediction.pickedFinishType = some result.finishType) = false := by
    simp [h]
  have hff : decide (prediction.pickedFinishType = some FinishType.finish) = false := by
    simp [h]
  refine ⟨?_, ?_, ?_, ?_⟩
  · simp only [calculateCredibility, hf, Bool.and_false, Bool.false_and,
      Bool.false_eq_true, if_false]
  · simp only [calculateCredibility, hf, Bool.and_false, Bool.false_and,
      Bool.false_eq_true, if_false]
  · simp only [derivePredictionStatus, correctMethodFlag, hf, hff,
      Bool.and_false, Bool.false_and, Bool.and_false, Bool.false_or,
      Bool.or_false, Bool.false_eq_true, if_false]
    cases hcw : decide (prediction.pickedWinner = result.winner) <;> simp
  · intro hw
    simp only [derivePredictionStatus, correctMethodFlag, hf, hff, hw,
      decide_eq_true_eq, Bool.and_false, Bool.false_and, Bool.and_false,
      Bool.false_or, Bool.or_false, Bool.false_eq_true, if_false]
    simp

/-- Witness for C10 at a concrete winner-only pick whose winner wins. -/
theorem winner_only_pick_at_best_partway_witness :
    (PredictionInput.mk "Alpha" none none).pickedFinishType = none ∧
    ((calculateCredibility ⟨"Alpha", none, none⟩ ⟨"Alpha", .decision, .decision⟩ none).finishTypePoints = 0 ∧
      (calculateCredibility ⟨"Alpha", none, none⟩ ⟨"Alpha", .decision, .decision⟩ none).perfectPickBonus = 0 ∧
      derivePredictionStatus "Alpha" none none "Alpha" .decision .decision
        ≠ PredictionStatus.correct ∧
      ("Alpha" = "Alpha" →
        derivePredictionStatus "Alpha" none none "Alpha" .decision .decision
          = PredictionStatus.partway)) :=
  ⟨rfl, winner_only_pick_at_best_partway ⟨"Alpha", none, none⟩
    ⟨"Alpha", .decision, .decision⟩ none rfl⟩

-- ═══════════════════════════════ Claim C8 ═══════════════════════════════════

/-- C8.  Resolving an unknown fight id is rejected with "Fight not found" and
leaves the store completely unchanged: the unconditional status update matches
no row, and the fan-out over predictions, log and profiles is never reached. -/
theorem resolve_unknown_fight_rejected_unchanged (s : DBState) (fightId : ℕ)
    (winner : String) (finishType : FinishType) (method : MethodType)
    (round : Option ℤ) (fightTime : Option String) (failUsers : List ℕ)
    (h : ∀ f ∈ s.fights, f.id ≠ fightId) :
    resolveFightEndpoint s fightId winner finishType method round fightTime failUsers
      = (s, Except.error "Fight not found") := by
  have h1 : dbResolveFight s fightId winner finishType method round fightTime = s := by
    unfold dbResolveFight
    rw [mapFixesAll s.fights _ (fun a ha => if_neg (h a ha))]
  have h2 : getFightById s fightId = none := by
    unfold getFightById
    exact findNoneOfAll _ _ (fun a ha => by simp [h a ha])
  simp only [resolveFightEndpoint, h1, h2]

/-- Witness for C8: a store whose only fight has id 1, resolved at id 99. -/
theorem resolve_unknown_fight_rejected_unchanged_witness :
    (∀ f ∈ stateOnePred.fights, f.id ≠ 99) ∧
    resolveFightEndpoint stateOnePred 99 "Alpha" FinishType.decision
        MethodType.decision none none []
      = (stateOnePred, Except.error "Fight not found") :=
  ⟨by decide, resolve_unknown_fight_rejected_unchanged stateOnePred 99 "Alpha"
    .decision .decision none none [] (by decide)⟩

-- ═══════════════════════════════ Claim C2, amended ══════════════════════════

/-- C2 amended.  A per-prediction aggregate-update failure aborts the rest of
that fight's predictions (the sequential loop propagates the first error), and
the poller's per-fight catch records the failure as one message in the
aggregated error list, does not count the fight as resolved, and continues
processing the remaining fights of the cycle from the partially-mutated
store. -/
theorem pollLoop_failure_recorded_and_loop_continues (failUsers : List ℕ)
    (s s1 : DBState) (fight : Fight) (w : String) (ft : FinishType)
    (m : MethodType) (e : String)
    (rest : List (Fight × String × FinishType × MethodType))
    (h : pollerAttemptFight s fight w ft m failUsers = (s1, Except.error e)) :
    pollLoopModel failUsers s ((fight, w, ft, m) :: rest) =
      ((pollLoopModel failUsers s1 rest).1,
        (pollLoopModel failUsers s1 rest).2.1,
        ("Error resolving " ++ fight.fighter1Name ++ " vs " ++ fight.fighter2Name
          ++ ": " ++ e) :: (pollLoopModel failUsers s1 rest).2.2) ∧
    (∀ (fight2 : Fight) (w2 : String) (ft2 : FinishType) (m2 : MethodType)
        (s2 s3 : DBState) (e2 : String) (p : PredictionRow)
        (ps : List PredictionRow),
      processPrediction fight2 w2 ft2 m2 failUsers s2 p = (s3, Except.error e2) →
      processPredictions fight2 w2 ft2 m2 failUsers s2 (p :: ps)
        = (s3, Except.error e2)) := by
  constructor
  · simp only [pollLoopModel]
    rw [h]
  · intro fight2 w2 ft2 m2 s2 s3 e2 p ps hp
    simp only [processPredictions]
    rw [hp]

/-- Witness for C2 amended: the two-prediction store where user 7's profile
write fails. -/
theorem pollLoop_failure_recorded_and_loop_continues_witness :
    pollLoopModel [7] stateTwoPreds [(fightAB, "Alpha", FinishType.decision, MethodType.decision)] =
      ((pollLoopModel [7] stateTwoPredsFailed []).1,
        (pollLoopModel [7] stateTwoPredsFailed []).2.1,
        ("Error resolving " ++ fightAB.fighter1Name ++ " vs " ++ fightAB.fighter2Name
          ++ ": " ++ "profile update failed") :: (pollLoopModel [7] stateTwoPredsFailed []).2.2) ∧
    (∀ (fight2 : Fight) (w2 : String) (ft2 : FinishType) (m2 : MethodType)
        (s2 s3 : DBState) (e2 : String) (p : PredictionRow)
        (ps : List PredictionRow),
      processPrediction fight2 w2 ft2 m2 [7] s2 p = (s3, Except.error e2) →
      processPredictions fight2 w2 ft2 m2 [7] s2 (p :: ps)
        = (s3, Except.error e2)) :=
  pollLoop_failure_recorded_and_loop_continues [7] stateTwoPreds stateTwoPredsFailed
    fightAB "Alpha" .decision .decision "profile update failed" []
    (by with_unfolding_all exact of_decide_eq_true rfl)

-- ═══════════════════════════════ Claim C9 ═══════════════════════════════════

/-- The upsert's outcome when no prediction for the (user, fight) pair exists:
the fresh row is appended and its id returned. -/
theorem upsertPrediction_insert_case (s : DBState) (userId fightId : ℕ)
    (pickedWinner : String) (pickedFinishType : Option FinishType)
    (pickedMethod : Option PickMethod) (odds : Option ℤ)
    (hex : getPredictionByUserAndFight s userId fightId = none) :
    upsertPrediction s userId fightId pickedWinner pickedFinishType pickedMethod odds
      = ({ s with
            predictions := s.predictions ++
              [{ id := s.nextPredId, userId := userId, fightId := fightId,
                 pickedWinner := pickedWinner, pickedFinishType := pickedFinishType,
                 pickedMethod := pickedMethod, isLocked := false, status := .pending,
                 winnerPoints := 0, finishTypePoints := 0, methodPoints := 0,
                 bonusPoints := 0, totalPoints := 0, oddsAtPrediction := odds }],
            nextPredId := s.nextPredId + 1 }, .ok s.nextPredId) := by
  unfold upsertPrediction
  simp only [hex]

/-- The upsert's outcome on an existing unlocked prediction: the row is updated
in place and its id returned. -/
theorem upsertPrediction_update_case (s : DBState) (userId fightId : ℕ)
    (pickedWinner : String) (pickedFinishType : Option FinishType)
    (pickedMethod : Option PickMethod) (odds : Option ℤ) (ex : PredictionRow)
    (hex : getPredictionByUserAndFight s userId fightId = some ex)
    (hl : ex.isLocked = false) :
    upsertPrediction s userId fightId pickedWinner pickedFinishType pickedMethod odds
      = ({ s with predictions :=
            s.predictions.map (applyPredictionUpdate pickedWinner pickedFinishType
              pickedMethod odds ex.id) }, .ok ex.id) := by
  unfold upsertPrediction
  simp only [hex, hl, Bool.false_eq_true, if_false]

/-- The row-update function of the upsert never changes the user and fight
keys, so the (user, fight) search predicate is preserved. -/
theorem applyPredictionUpdate_preserves_keys (pickedWinner : String)
    (pickedFinishType : Option FinishType) (pickedMethod : Option PickMethod)
    (odds : Option ℤ) (targetId userId fightId : ℕ) (p : PredictionRow) :
    (decide ((applyPredictionUpdate pickedWinner pickedFinishType pickedMethod
        odds targetId p).userId = userId)
      && decide ((applyPredictionUpdate pickedWinner pickedFinishType pickedMethod
        odds targetId p).fightId = fightId))
    = (decide (p.userId = userId) && decide (p.fightId = fightId)) := by
  unfold applyPredictionUpdate
  by_cases hid : p.id = targetId
  · rw [if_pos hid]
  · rw [if_neg hid]

/-- After a successful upsert, the (user, fight) search returns a row carrying
the new pick. -/
theorem upsertPrediction_stores_pick (s : DBState) (userId fightId : ℕ)
    (pickedWinner : String) (pickedFinishType : Option FinishType)
    (pickedMethod : Option PickMethod) (odds : Option ℤ)
    (hunlocked : ∀ p, getPredictionByUserAndFight s userId fightId = some p →
      p.isLocked = false) :
    ∃ n, (upsertPrediction s userId fightId pickedWinner pickedFinishType
        pickedMethod odds).2 = Except.ok n ∧
      ((getPredictionByUserAndFight
          (upsertPrediction s userId fightId pickedWinner pickedFinishType
            pickedMethod odds).1 userId fightId).map (fun p => p.pickedWinner))
        = some pickedWinner := by
  cases hex : getPredictionByUserAndFight s userId fightId with
  | none =>
    rw [upsertPrediction_insert_case s userId fightId pickedWinner pickedFinishType
      pickedMethod odds hex]
    refine ⟨s.nextPredId, rfl, ?_⟩
    unfold getPredictionByUserAndFight at hex ⊢
    rw [findAppendOfNone _ _ _ hex]
    simp [List.find?]
  | some ex =>
    have hl : ex.isLocked = false := hunlocked ex hex
    rw [upsertPrediction_update_case s userId fightId pickedWinner pickedFinishType
      pickedMethod odds ex hex hl]
    refine ⟨ex.id, rfl, ?_⟩
    unfold getPredictionByUserAndFight at hex ⊢
    rw [findMapPreserve _ _
      (applyPredictionUpdate_preserves_keys pickedWinner pickedFinishType pickedMethod
        odds ex.id userId fightId) s.predictions, hex]
    simp only [Option.map_map, Option.map_some', Function.comp_apply]
    unfold applyPredictionUpdate
    rw [if_pos rfl]

/-- A successful or locked upsert never yields the started-fight error. -/
theorem upsertPrediction_never_started_error (s : DBState) (userId fightId : ℕ)
    (pickedWinner : String) (pickedFinishType : Option FinishType)
    (pickedMethod : Option PickMethod) (odds : Option ℤ) :
    (upsertPrediction s userId fightId pickedWinner pickedFinishType
        pickedMethod odds).2 ≠ Except.error "Cannot predict — fight has already started" := by
  cases hex : getPredictionByUserAndFight s userId fightId with
  | none =>
    rw [upsertPrediction_insert_case s userId fightId pickedWinner pickedFinishType
      pickedMethod odds hex]
    simp
  | some ex =>
    cases hl : ex.isLocked with
    | false =>
      rw [upsertPrediction_update_case s userId fightId pickedWinner pickedFinishType
        pickedMethod odds ex hex hl]
      simp
    | true =>
      unfold upsertPrediction
      simp only [hex, hl, if_true]
      intro hcon
      have := Except.error.inj hcon
      exact absurd this (by decide)

/-- C9.  The submit endpoint's started-fight guard rejects exactly the fights
in status "live" or "completed"; for a fight in status "cancelled" (or
"upcoming") whose existing prediction, if any, is unlocked, submission
succeeds and the user's stored prediction carries the new pick. -/
theorem submit_rejects_only_started_fights (s : DBState) (userId fightId : ℕ)
    (pickedWinner : String) (pickedFinishType : Option FinishType)
    (pickedMethod : Option PickMethod) (fight : Fight)
    (hf : getFightById s fightId = some fight) :
    (((predictionsSubmit s userId fightId pickedWinner pickedFinishType pickedMethod).2
        = Except.error "Cannot predict — fight has already started")
      ↔ (fight.status = .live ∨ fight.status = .completed)) ∧
    ((fight.status = .cancelled ∨ fight.status = .upcoming) →
      (∀ p, getPredictionByUserAndFight s userId fightId = some p → p.isLocked = false) →
      ∃ n, (predictionsSubmit s userId fightId pickedWinner pickedFinishType pickedMethod).2
          = Except.ok n ∧
        ((getPredictionByUserAndFight
            (predictionsSubmit s userId fightId pickedWinner pickedFinishType pickedMethod).1
            userId fightId).map (fun p => p.pickedWinner)) = some pickedWinner) := by
  constructor
  · by_cases hs : fight.status = .live ∨ fight.status = .completed
    · unfold predictionsSubmit
      simp only [hf, if_pos hs]
      exact iff_of_true trivial hs
    · unfold predictionsSubmit
      simp only [hf, if_neg hs]
      exact iff_of_false
        (upsertPrediction_never_started_error s userId fightId pickedWinner
          pickedFinishType pickedMethod _) hs
  · intro hcu hunlocked
    have hs : ¬(fight.status = .live ∨ fight.status = .completed) := by
      cases hcu with
      | inl h4 => rw [h4]; rintro (h5 | h5) <;> exact FightStatus.noConfusion h5
      | inr h4 => rw [h4]; rintro (h5 | h5) <;> exact FightStatus.noConfusion h5
    unfold predictionsSubmit
    simp only [hf, if_neg hs]
    exact upsertPrediction_stores_pick s userId fightId pickedWinner
      pickedFinishType pickedMethod _ hunlocked

/-- Witness for C9: submitting on the cancelled fight of `stateCancelled`
succeeds and stores the pick. -/
theorem submit_rejects_only_started_fights_witness :
    (((predictionsSubmit stateCancelled 7 4 "Bravo" none none).2
        = Except.error "Cannot predict — fight has already started")
      ↔ (fightCancelled.status = .live ∨ fightCancelled.status = .completed)) ∧
    (∃ n, (predictionsSubmit stateCancelled 7 4 "Bravo" none none).2 = Except.ok n ∧
      ((getPredictionByUserAndFight
          (predictionsSubmit stateCancelled 7 4 "Bravo" none none).1 7 4).map
        (fun p => p.pickedWinner)) = some "Bravo") := by
  have h := submit_rejects_only_started_fights stateCancelled 7 4 "Bravo" none none
    fightCancelled (by decide)
  exact ⟨h.1, h.2 (by decide)
    (by intro p hp; simp [getPredictionByUserAndFight, stateCancelled] at hp)⟩
